import Mathlib

/-!
Shallow embedding of the scoring and eligibility engine of the se-handwerk
lead agent, translated from the `src/agent` generation of the code:
`filter/criteria.py` (class `Criteria`), `filter/scorer.py` (class `Scorer`),
`models.py` (`Listing`, `Kategorie`, `Prioritaet`, `Bewertungsergebnis`) and
`utils/geo_distance.py` (`GeoDistanceFilter.ist_im_radius`).

Python strings are Lean `String`s, Python `int`s are `Int`, Python
`//` is `Int.fdiv` (floor division) and `int(float)` truncation toward
zero is `Int.tdiv` (the dyadic factors 0.875, 0.75 and 0.375 are exact
binary floats, so the float product is exact and truncation agrees with
integer T-division).  The configuration dictionary is a structure holding
exactly the keys the engine reads.
-/

/-- Models Python `str.lower` on one character for the alphabet that occurs in
the engine's keyword lists and inputs: ASCII letters plus the German capital
umlauts.  Other characters are returned unchanged. -/
def pyLowerChar (c : Char) : Char :=
  if c = 'Ä' then 'ä'
  else if c = 'Ö' then 'ö'
  else if c = 'Ü' then 'ü'
  else c.toLower

/-- Models Python `str.lower` (character-wise, length preserving). -/
def pyLower (s : String) : String :=
  ⟨s.data.map pyLowerChar⟩

/-- Containment of one character list inside another, at any position. -/
def charsContain (needle : List Char) : List Char → Bool
  | [] => needle.isEmpty
  | c :: rest => needle.isPrefixOf (c :: rest) || charsContain needle rest

/-- Models the Python substring test `needle in haystack` on `str`. -/
def str_in (needle haystack : String) : Bool :=
  charsContain needle.data haystack.data

/-- Python `s[:n]` for the small slices the engine takes. -/
def strTake (s : String) (n : Nat) : String :=
  ⟨s.data.take n⟩

/-- Characters matched by `\s` in the Python `re` module (ASCII range). -/
def is_space (c : Char) : Bool :=
  c = ' ' || c = '\t' || c = '\n' || c = '\r' || c = Char.ofNat 11 || c = Char.ofNat 12

/-- Word characters for `\b` boundaries in the Python `re` module, restricted
to the alphabet occurring in the inputs: ASCII alphanumerics, underscore and
German letters. -/
def isWordChar (c : Char) : Bool :=
  c.isAlphanum || c = '_' || c = 'ä' || c = 'ö' || c = 'ü' || c = 'ß' ||
    c = 'Ä' || c = 'Ö' || c = 'Ü'

/-- Attempts to read exactly five digits at the head of `l`, with a word
boundary after them, as required by `\b(\d{5})\b`. -/
def fiveDigitsHere (l : List Char) : Option (List Char) :=
  let ds := l.take 5
  if ds.length = 5 && ds.all Char.isDigit then
    match l.drop 5 with
    | [] => some ds
    | c :: _ => if isWordChar c then none else some ds
  else none

/-- Left-to-right scan for the first match of `\b(\d{5})\b`; `prev` is the
character before the current position (for the leading word boundary). -/
def plzSearch (prev : Option Char) : List Char → Option (List Char)
  | [] => none
  | c :: rest =>
    let boundary := match prev with
      | none => true
      | some p => !isWordChar p
    if boundary then
      match fiveDigitsHere (c :: rest) with
      | some ds => some ds
      | none => plzSearch (some c) rest
    else plzSearch (some c) rest

/-- Models `re.search(r'\b(\d{5})\b', text)` returning the captured group:
the first five-digit run delimited by word boundaries
(`Criteria.ist_ausgeschlossen` and `GeoDistanceFilter._extract_plz`). -/
def extract_plz (s : String) : Option String :=
  (plzSearch none s.data).map (fun ds => ⟨ds⟩)

/-- Matcher for one alternative `\d+\s*<lit>` of the description patterns:
succeeds when, starting at the current position, whitespace then the literal
follows (the preceding digit is checked by `digit_ws_lit`). -/
def ws_lit (lit : List Char) : List Char → Bool
  | [] => lit.isEmpty
  | c :: rest => lit.isPrefixOf (c :: rest) || (is_space c && ws_lit lit rest)

/-- `re.search` semantics for `\d+\s*<lit>`: some position holds a digit
followed by optional whitespace and the literal. -/
def digit_ws_lit (lit : List Char) : List Char → Bool
  | [] => false
  | c :: rest => (c.isDigit && ws_lit lit rest) || digit_ws_lit lit rest

/-- Models `re.search(r"\d+\s*m[²2]|\d+\s*qm|\d+\s*quadrat", s)` of
`Criteria.hat_realistische_beschreibung` as a Boolean. -/
def flaeche_found (s : String) : Bool :=
  digit_ws_lit "m²".data s.data || digit_ws_lit "m2".data s.data ||
    digit_ws_lit "qm".data s.data || digit_ws_lit "quadrat".data s.data

/-- Models `re.search(r"\d+\s*zimmer|\d+\s*räume|\d+\s*raum", s)` of
`Criteria.hat_realistische_beschreibung` as a Boolean. -/
def raum_found (s : String) : Bool :=
  digit_ws_lit "zimmer".data s.data || digit_ws_lit "räume".data s.data ||
    digit_ws_lit "raum".data s.data


/-- `models.Kategorie`: closed enum of service categories. -/
inductive Kategorie where
  | BODEN
  | MONTAGE
  | UEBERGABE
  | SONSTIGES
deriving DecidableEq, Repr

/-- `models.Prioritaet`: closed enum of priority tiers
(GRUEN = high, GELB = medium, ROT = low). -/
inductive Prioritaet where
  | GRUEN
  | GELB
  | ROT
deriving DecidableEq, Repr

/-- `models.Listing`, restricted to the fields the scoring engine reads. -/
structure Listing where
  titel : String
  beschreibung : String
  ort : String
deriving DecidableEq, Repr

/-- One entry of the `regionen` configuration dictionary consumed by
`Scorer._score_region` (the dictionary key is the region's name; iteration
order of the Python dict is declaration order, modelled by list order). -/
structure Region where
  name : String
  score : Int
  keywords : List String
  plz_prefixes : List String
deriving DecidableEq, Repr

/-- The configuration keys read by `Criteria` and `Scorer`.  Defaults applied
by `.get(...)` in the source are the caller's responsibility here: a `Config`
value holds the effective values (e.g. `gew_region = 30` when the YAML omits
`scoring.gewichtung.region`). -/
structure Config where
  ausschluss_leistungen : List String
  ausschluss_billig : List String
  suchbegriffe_boden : List String
  suchbegriffe_montage : List String
  suchbegriffe_uebergabe : List String
  gew_region : Int
  gew_leistung : Int
  gruen_min : Int
  gelb_min : Int
  regionen : List Region
deriving DecidableEq, Repr

/-- `models.Bewertungsergebnis`. -/
structure Bewertungsergebnis where
  listing : Listing
  score_gesamt : Int
  score_region : Int
  score_leistung : Int
  score_qualitaet : Int
  kategorie : Kategorie
  prioritaet : Prioritaet
  ausgeschlossen : Bool := false
  ausschluss_grund : Option String := none
deriving DecidableEq, Repr

/-- `Bewertungsergebnis.ist_relevant` property. -/
def Bewertungsergebnis.ist_relevant (e : Bewertungsergebnis) : Bool :=
  !e.ausgeschlossen && decide (e.prioritaet ≠ Prioritaet.ROT)

/-- Hard-coded list `im_umkreis_100km` of `Criteria.ist_ausgeschlossen`. -/
def im_umkreis_100km : List String :=
  ["heilbronn", "neckarsulm", "weinsberg", "bad friedrichshall",
   "lauffen", "brackenheim", "öhringen", "neuenstadt",
   "bad rappenau", "eppingen", "schwaigern", "obersulm",
   "erlenbach", "gundelsheim", "möckmühl", "bad wimpfen",
   "jagsthausen", "widdern", "langenbrettach", "untergruppenbach",
   "abstatt", "beilstein", "ilsfeld", "talheim", "flein",
   "leingarten", "nordheim", "cleebronn",
   "stuttgart", "ludwigsburg", "schwäbisch hall", "crailsheim",
   "esslingen", "waiblingen", "fellbach", "leonberg",
   "kornwestheim", "bietigheim", "sachsenheim", "vaihingen",
   "mühlacker", "bretten", "künzelsau", "gaildorf",
   "backnang", "winnenden", "schorndorf", "marbach",
   "böblingen", "sindelfingen", "mosbach", "sinsheim",
   "heidelberg", "mannheim", "karlsruhe", "pforzheim",
   "schwäbisch gmünd", "aalen", "ellwangen",
   "würzburg", "tauberbischofsheim", "wertheim",
   "göppingen", "kirchheim", "nürtingen"]

/-- Hard-coded list `zu_weit_weg` of `Criteria.ist_ausgeschlossen`. -/
def zu_weit_weg : List String :=
  ["berlin", "hamburg", "münchen", "köln", "frankfurt",
   "düsseldorf", "dortmund", "essen", "bremen", "dresden",
   "leipzig", "hannover", "nürnberg", "rostock", "kiel",
   "lübeck", "potsdam", "erfurt", "magdeburg", "saarbrücken",
   "mainz", "wiesbaden", "kassel", "braunschweig", "bielefeld",
   "münster", "augsburg", "regensburg", "chemnitz", "halle",
   "bochum", "duisburg", "bonn", "aachen", "krefeld",
   "mönchengladbach", "gelsenkirchen", "oberhausen",
   "freiburg", "konstanz", "ulm", "friedrichshafen",
   "ravensburg", "tuttlingen", "villingen", "donaueschingen",
   "rottweil", "offenburg", "lahr", "lörrach", "waldshut",
   "sigmaringen", "biberach"]

/-- Hard-coded list `erlaubte_prefixe`, identical in
`Criteria.ist_ausgeschlossen` and `GeoDistanceFilter.ist_im_radius`. -/
def erlaubte_prefixe : List String :=
  ["74", "70", "71", "69", "68", "75", "72", "73"]

/-- `Criteria.ist_ausgeschlossen` (src/agent/filter/criteria.py, lines
20-92): excluded-service terms, then low-budget phrases, then the hard-coded
geographic checks on the location field. -/
def ist_ausgeschlossen (cfg : Config) (L : Listing) : Bool × Option String :=
  let text := pyLower (L.titel ++ " " ++ L.beschreibung)
  match (cfg.ausschluss_leistungen.map pyLower).find? (fun a => str_in a text) with
  | some ausschluss => (true, some ("Ausgeschlossene Leistung: " ++ ausschluss))
  | none =>
    match (cfg.ausschluss_billig.map pyLower).find? (fun b => str_in b text) with
    | some billig => (true, some ("Billig-Anfrage: " ++ billig))
    | none =>
      let ort_lower := pyLower L.ort
      if ort_lower = "" then (false, none)
      else if zu_weit_weg.any (fun stadt => str_in stadt ort_lower) then
        (true, some ("Zu weit entfernt (>100km): " ++ L.ort))
      else if im_umkreis_100km.any (fun ind => str_in ind ort_lower) then
        (false, none)
      else
        match extract_plz ort_lower with
        | some plz =>
          if erlaubte_prefixe.contains (strTake plz 2) then (false, none)
          else (true, some ("PLZ außerhalb Einzugsgebiet: " ++ plz ++ " (" ++ L.ort ++ ")"))
        | none => (false, none)

/-- `Criteria._keyword_match_count`: how many of the configured keywords for
one category occur (lower-cased) in the given text. -/
def keyword_match_count (keywords : List String) (text : String) : Nat :=
  keywords.countP (fun kw => str_in (pyLower kw) text)

/-- The first key with maximal value in the three-entry `scores` dict of
`Criteria.kategorie_erkennen` (`max(scores, key=scores.get)` keeps the
earliest maximum; insertion order is BODEN, MONTAGE, UEBERGABE). -/
def max_kategorie (b m u : Nat) : Kategorie :=
  if b ≥ m ∧ b ≥ u then Kategorie.BODEN
  else if m ≥ u then Kategorie.MONTAGE
  else Kategorie.UEBERGABE

/-- Lookup `scores[k]` for the same dict (`SONSTIGES` is not a key; the
engine never looks it up). -/
def kategorie_count (k : Kategorie) (b m u : Nat) : Nat :=
  match k with
  | Kategorie.BODEN => b
  | Kategorie.MONTAGE => m
  | Kategorie.UEBERGABE => u
  | Kategorie.SONSTIGES => 0

/-- `Criteria.kategorie_erkennen` (src/agent/filter/criteria.py, lines
94-107). -/
def kategorie_erkennen (cfg : Config) (L : Listing) : Kategorie :=
  let text := pyLower (L.titel ++ " " ++ L.beschreibung)
  let boden_score := keyword_match_count cfg.suchbegriffe_boden text
  let montage_score := keyword_match_count cfg.suchbegriffe_montage text
  let uebergabe_score := keyword_match_count cfg.suchbegriffe_uebergabe text
  let best := max_kategorie boden_score montage_score uebergabe_score
  if kategorie_count best boden_score montage_score uebergabe_score > 0 then best
  else Kategorie.SONSTIGES

/-- Hard-coded list `gewerblich_indikatoren` of `Criteria.ist_privatkunde`
(note the trailing space in `"ag "`). -/
def gewerblich_indikatoren : List String :=
  ["firma", "gmbh", "ag ", "gbr", "unternehmen",
   "gewerbe", "gewerblich", "großauftrag", "serie"]

/-- `Criteria.ist_privatkunde`. -/
def ist_privatkunde (L : Listing) : Bool :=
  let text := pyLower (L.titel ++ " " ++ L.beschreibung)
  !(gewerblich_indikatoren.any (fun ind => str_in ind text))

/-- Hard-coded list `dringend_keywords` of `Criteria.hat_dringlichkeit`. -/
def dringend_keywords : List String :=
  ["dringend", "schnell", "asap", "sofort", "diese woche",
   "kurzfristig", "eilig", "notfall", "baldmöglichst",
   "zeitnah", "nächste woche"]

/-- `Criteria.hat_dringlichkeit`. -/
def hat_dringlichkeit (L : Listing) : Bool :=
  let text := pyLower (L.titel ++ " " ++ L.beschreibung)
  dringend_keywords.any (fun kw => str_in kw text)

/-- `Criteria.hat_realistische_beschreibung` (src/agent/filter/criteria.py,
lines 137-147): length gate at 20 characters, then the area / room-count
regexes on the lower-cased description, else the 50-character gate. -/
def hat_realistische_beschreibung (L : Listing) : Bool :=
  let text := L.beschreibung
  if text.length < 20 then false
  else if flaeche_found (pyLower text) then true
  else if raum_found (pyLower text) then true
  else decide (50 ≤ text.length)

/-- Hard-coded list `fitness_keywords` of `Scorer._score_leistung`. -/
def fitness_keywords : List String :=
  ["homegym", "power rack", "squat rack", "fitnessgerät",
   "kraftstation", "hantelbank", "laufband"]

/-- One region of `Scorer._score_region`: any lower-cased keyword contained
in the location, or any postal prefix contained in the location. -/
def region_match (ort : String) (r : Region) : Bool :=
  (r.keywords.map pyLower).any (fun kw => str_in kw ort) ||
    r.plz_prefixes.any (fun p => str_in p ort)

/-- The region loop of `Scorer._score_region`: first matching region's score,
else the fixed minimum 5. -/
def region_loop (ort : String) : List Region → Int
  | [] => 5
  | r :: rest => if region_match ort r then r.score else region_loop ort rest

/-- `Scorer._score_region` (src/agent/filter/scorer.py, lines 62-76);
`max_punkte // 3` is Python floor division. -/
def score_region_fn (cfg : Config) (L : Listing) : Int :=
  let ort := pyLower L.ort
  if ort = "" then cfg.gew_region.fdiv 3
  else region_loop ort cfg.regionen

/-- `Scorer._score_leistung` (src/agent/filter/scorer.py, lines 78-96);
`int(max_punkte * 0.875)` etc. are exact dyadic products truncated toward
zero, i.e. `Int.tdiv` of the scaled integer. -/
def score_leistung_fn (cfg : Config) (L : Listing) (kategorie : Kategorie) : Int :=
  let max_punkte := cfg.gew_leistung
  let base_score : Int :=
    match kategorie with
    | Kategorie.BODEN => max_punkte
    | Kategorie.MONTAGE => (max_punkte * 7).tdiv 8
    | Kategorie.UEBERGABE => (max_punkte * 3).tdiv 4
    | Kategorie.SONSTIGES => (max_punkte * 3).tdiv 8
  let text := pyLower (L.titel ++ " " ++ L.beschreibung)
  let base_score :=
    if fitness_keywords.any (fun kw => str_in kw text) then
      min max_punkte (base_score + 5)
    else base_score
  let base_score :=
    if str_in "übergabe" text && (str_in "boden" text || str_in "streichen" text) then
      min max_punkte (base_score + 3)
    else base_score
  base_score

/-- `Scorer._score_qualitaet`: 10 points per true quality predicate. -/
def score_qualitaet_fn (L : Listing) : Int :=
  (if ist_privatkunde L then 10 else 0) +
    (if hat_realistische_beschreibung L then 10 else 0) +
    (if hat_dringlichkeit L then 10 else 0)

/-- The priority-threshold chain at the end of `Scorer.bewerten`. -/
def prio_of (cfg : Config) (score_gesamt : Int) : Prioritaet :=
  if score_gesamt ≥ cfg.gruen_min then Prioritaet.GRUEN
  else if score_gesamt ≥ cfg.gelb_min then Prioritaet.GELB
  else Prioritaet.ROT

/-- `Scorer.bewerten` (src/agent/filter/scorer.py, lines 18-60).  The
non-excluded branch leaves `ausgeschlossen`/`ausschluss_grund` at the
dataclass defaults `False`/`None`. -/
def bewerten (cfg : Config) (L : Listing) : Bewertungsergebnis :=
  let pruefung := ist_ausgeschlossen cfg L
  if pruefung.1 then
    { listing := L
      score_gesamt := 0
      score_region := 0
      score_leistung := 0
      score_qualitaet := 0
      kategorie := Kategorie.SONSTIGES
      prioritaet := Prioritaet.ROT
      ausgeschlossen := true
      ausschluss_grund := pruefung.2 }
  else
    let kategorie := kategorie_erkennen cfg L
    let score_region := score_region_fn cfg L
    let score_leistung := score_leistung_fn cfg L kategorie
    let score_qualitaet := score_qualitaet_fn L
    let score_gesamt := score_region + score_leistung + score_qualitaet
    { listing := L
      score_gesamt := score_gesamt
      score_region := score_region
      score_leistung := score_leistung
      score_qualitaet := score_qualitaet
      kategorie := kategorie
      prioritaet := prio_of cfg score_gesamt
      ausgeschlossen := false
      ausschluss_grund := none }

/-- `GeoDistanceFilter.ist_im_radius` (src/agent/utils/geo_distance.py,
lines 241-274).  The geocoding lookup (`_get_coordinates`: Nominatim HTTP
call, SQLite cache, rate limiter, enabled flag) and the haversine / radius
comparison on floats are external effects, abstracted as the parameters
`get_coordinates`, `distanz`, `im_radius_check` and `grund_fmt`; the empty
check, the postal-prefix fallback and the result shape are translated
literally. -/
def ist_im_radius {Coord Dist : Type}
    (get_coordinates : String → Option Coord)
    (distanz : Coord → Dist)
    (im_radius_check : Dist → Bool)
    (grund_fmt : Dist → String)
    (ort_text : String) : Bool × Option Dist × Option String :=
  if ort_text = "" then (true, none, none)
  else
    match get_coordinates ort_text with
    | none =>
      match extract_plz ort_text with
      | some plz =>
        if erlaubte_prefixe.contains (strTake plz 2) then
          (true, none, some ("PLZ-Fallback: " ++ plz))
        else
          (false, none, some ("PLZ außerhalb: " ++ plz ++ " (" ++ ort_text ++ ")"))
      | none => (true, none, none)
    | some coords =>
      let d := distanz coords
      if im_radius_check d then (true, some d, none)
      else (false, some d, some (grund_fmt d))

/-- First configured test region. -/
def regionKern : Region :=
  { name := "kernregion", score := 30
    keywords := ["heilbronn", "neckarsulm"], plz_prefixes := ["74"] }

/-- Second configured test region. -/
def regionErweitert : Region :=
  { name := "erweitert", score := 20
    keywords := ["stuttgart", "ludwigsburg"], plz_prefixes := ["70", "71"] }

/-- A concrete configuration with the documented default weights and
thresholds, used as test input for the witnesses. -/
def testConfig : Config :=
  { ausschluss_leistungen := ["fliesen verlegen", "tapezieren"]
    ausschluss_billig := ["zum günstigsten preis", "so billig wie möglich"]
    suchbegriffe_boden := ["laminat", "parkett", "vinyl", "bodenbelag"]
    suchbegriffe_montage := ["möbelmontage", "montage", "aufbau"]
    suchbegriffe_uebergabe := ["wohnungsübergabe", "übergabe", "renovierung"]
    gew_region := 30
    gew_leistung := 40
    gruen_min := 70
    gelb_min := 40
    regionen := [regionKern, regionErweitert] }

/-- Test listing: urgent flooring request in Heilbronn with an area figure. -/
def testListingTop : Listing :=
  { titel := "Laminat verlegen dringend"
    beschreibung := "Wir brauchen Hilfe beim Verlegen von 25 m² Laminat im Wohnzimmer."
    ort := "Heilbronn" }

/-- Test listing with no location and a short description. -/
def testListingLeer : Listing :=
  { titel := "Hilfe gesucht"
    beschreibung := "Kurzer Text."
    ort := "" }

/-- Test listing whose text hits both an excluded service and a low-budget
phrase. -/
def testListingBeides : Listing :=
  { titel := "Fliesen verlegen zum günstigsten Preis"
    beschreibung := "Bitte nur Angebote zum günstigsten Preis."
    ort := "" }

/-- Test listing located in a hard-excluded city. -/
def testListingBerlin : Listing :=
  { titel := "Laminat verlegen"
    beschreibung := "Neue Wohnung, Boden machen."
    ort := "Berlin" }

/-- Rank of a priority tier (low = 0, medium = 1, high = 2), used to state
monotonicity of the threshold step function. -/
def prio_rank : Prioritaet → Nat
  | Prioritaet.ROT => 0
  | Prioritaet.GELB => 1
  | Prioritaet.GRUEN => 2

/-- Test listing with a 30-character description and no numeric pattern. -/
def testListingKurz : Listing :=
  { titel := "Boden"
    beschreibung := "abcdefghijklmnopqrstuvwxyzabcd"
    ort := "" }

/-- A lower-cased string is empty exactly when the original is. -/
theorem pyLower_eq_empty_iff (s : String) : pyLower s = "" ↔ s = "" := by
  cases s with
  | mk data =>
    cases data <;> simp [pyLower, String.ext_iff]

/-- `ist_ausgeschlossen` always carries a reason when it excludes. -/
theorem ist_ausgeschlossen_snd_some (cfg : Config) (L : Listing)
    (h : (ist_ausgeschlossen cfg L).1 = true) :
    ∃ s, (ist_ausgeschlossen cfg L).2 = some s := by
  rcases hres : ist_ausgeschlossen cfg L with ⟨b, o⟩
  rw [hres] at h
  dsimp only at h ⊢
  unfold ist_ausgeschlossen at hres
  dsimp only at hres
  repeat' split at hres
  all_goals injection hres with hb ho
  all_goals subst hb
  all_goals subst ho
  all_goals simp_all

/-- Evaluation of the exclusion branch of `bewerten`. -/
theorem bewerten_excluded (cfg : Config) (L : Listing)
    (h : (ist_ausgeschlossen cfg L).1 = true) :
    bewerten cfg L =
      { listing := L
        score_gesamt := 0
        score_region := 0
        score_leistung := 0
        score_qualitaet := 0
        kategorie := Kategorie.SONSTIGES
        prioritaet := Prioritaet.ROT
        ausgeschlossen := true
        ausschluss_grund := (ist_ausgeschlossen cfg L).2 } := by
  unfold bewerten
  simp [h]

/-- Evaluation of the scoring branch of `bewerten`. -/
theorem bewerten_not_excluded (cfg : Config) (L : Listing)
    (h : (ist_ausgeschlossen cfg L).1 = false) :
    bewerten cfg L =
      { listing := L
        score_gesamt := score_region_fn cfg L +
          score_leistung_fn cfg L (kategorie_erkennen cfg L) + score_qualitaet_fn L
        score_region := score_region_fn cfg L
        score_leistung := score_leistung_fn cfg L (kategorie_erkennen cfg L)
        score_qualitaet := score_qualitaet_fn L
        kategorie := kategorie_erkennen cfg L
        prioritaet := prio_of cfg (score_region_fn cfg L +
          score_leistung_fn cfg L (kategorie_erkennen cfg L) + score_qualitaet_fn L)
        ausgeschlossen := false
        ausschluss_grund := none } := by
  unfold bewerten
  simp [h]

/-- The excluded flag of a scoring result equals the exclusion check. -/
theorem bewerten_ausgeschlossen_eq (cfg : Config) (L : Listing) :
    (bewerten cfg L).ausgeschlossen = (ist_ausgeschlossen cfg L).1 := by
  cases h : (ist_ausgeschlossen cfg L).1
  · rw [bewerten_not_excluded cfg L h]
  · rw [bewerten_excluded cfg L h]

/-- T-division of a nonnegative multiple of 7 by 8 stays in `[0, n]`. -/
theorem tdiv78_bounds (n : Nat) :
    0 ≤ ((n : Int) * 7).tdiv 8 ∧ ((n : Int) * 7).tdiv 8 ≤ (n : Int) := by
  have h : ((n : Int) * 7).tdiv 8 = ((n * 7 / 8 : Nat) : Int) := rfl
  rw [h]
  omega

/-- T-division of a nonnegative multiple of 3 by 4 stays in `[0, n]`. -/
theorem tdiv34_bounds (n : Nat) :
    0 ≤ ((n : Int) * 3).tdiv 4 ∧ ((n : Int) * 3).tdiv 4 ≤ (n : Int) := by
  have h : ((n : Int) * 3).tdiv 4 = ((n * 3 / 4 : Nat) : Int) := rfl
  rw [h]
  omega

/-- T-division of a nonnegative multiple of 3 by 8 stays in `[0, n]`. -/
theorem tdiv38_bounds (n : Nat) :
    0 ≤ ((n : Int) * 3).tdiv 8 ∧ ((n : Int) * 3).tdiv 8 ≤ (n : Int) := by
  have h : ((n : Int) * 3).tdiv 8 = ((n * 3 / 8 : Nat) : Int) := rfl
  rw [h]
  omega

/-- Floor division of a natural number cast to `Int` is the `Nat` division. -/
theorem fdiv3_eq (n : Nat) : (n : Int).fdiv 3 = ((n / 3 : Nat) : Int) := by
  cases n with
  | zero => rfl
  | succ m => rfl

/-- Floor division of a nonnegative value by 3 stays in `[0, n]`. -/
theorem fdiv3_bounds (n : Nat) :
    0 ≤ (n : Int).fdiv 3 ∧ (n : Int).fdiv 3 ≤ (n : Int) := by
  rw [fdiv3_eq]
  omega

/-- The quality sub-score is a sum of three 10-point awards. -/
theorem score_qualitaet_fn_bounds (L : Listing) :
    0 ≤ score_qualitaet_fn L ∧ score_qualitaet_fn L ≤ 30 := by
  unfold score_qualitaet_fn
  split_ifs <;> omega

/-- The service sub-score stays within `[0, gew_leistung]` for nonnegative
configured weight. -/
theorem score_leistung_fn_bounds (cfg : Config) (L : Listing) (k : Kategorie)
    (hg : 0 ≤ cfg.gew_leistung) :
    0 ≤ score_leistung_fn cfg L k ∧ score_leistung_fn cfg L k ≤ cfg.gew_leistung := by
  obtain ⟨n, hn⟩ := Int.eq_ofNat_of_zero_le hg
  unfold score_leistung_fn
  rw [hn]
  have h78 := tdiv78_bounds n
  have h34 := tdiv34_bounds n
  have h38 := tdiv38_bounds n
  cases k <;> dsimp only <;> simp only [min_def] <;> split_ifs <;> omega

/-- The region loop stays within `[0, M]` when every configured region score
does and `5 ≤ M`. -/
theorem region_loop_bounds (ort : String) (M : Int) (rs : List Region)
    (h : ∀ r ∈ rs, 0 ≤ r.score ∧ r.score ≤ M) (h5 : 5 ≤ M) :
    0 ≤ region_loop ort rs ∧ region_loop ort rs ≤ M := by
  induction rs with
  | nil =>
    unfold region_loop
    omega
  | cons r rest ih =>
    unfold region_loop
    split_ifs
    · exact h r (List.mem_cons_self r rest)
    · exact ih (fun r' hr' => h r' (List.mem_cons_of_mem r hr'))

/-- The region sub-score stays within `[0, gew_region]` when every configured
region score does and `5 ≤ gew_region`. -/
theorem score_region_fn_bounds (cfg : Config) (L : Listing)
    (h : ∀ r ∈ cfg.regionen, 0 ≤ r.score ∧ r.score ≤ cfg.gew_region)
    (h5 : 5 ≤ cfg.gew_region) :
    0 ≤ score_region_fn cfg L ∧ score_region_fn cfg L ≤ cfg.gew_region := by
  unfold score_region_fn
  dsimp only
  split_ifs
  · have hg : 0 ≤ cfg.gew_region := by omega
    obtain ⟨n, hn⟩ := Int.eq_ofNat_of_zero_le hg
    rw [hn]
    have := fdiv3_bounds n
    omega
  · exact region_loop_bounds (pyLower L.ort) cfg.gew_region cfg.regionen h h5

/-- The threshold chain yields GRUEN exactly from `gruen_min` upward. -/
theorem prio_of_gruen_iff (cfg : Config) (t : Int) :
    prio_of cfg t = Prioritaet.GRUEN ↔ cfg.gruen_min ≤ t := by
  unfold prio_of
  split_ifs <;> simp_all

/-- The threshold chain yields GELB exactly on `[gelb_min, gruen_min)`. -/
theorem prio_of_gelb_iff (cfg : Config) (t : Int) :
    prio_of cfg t = Prioritaet.GELB ↔ cfg.gelb_min ≤ t ∧ t < cfg.gruen_min := by
  unfold prio_of
  split_ifs <;> simp_all

/-- The threshold chain yields ROT exactly below both thresholds. -/
theorem prio_of_rot_iff (cfg : Config) (t : Int) :
    prio_of cfg t = Prioritaet.ROT ↔ t < cfg.gelb_min ∧ t < cfg.gruen_min := by
  unfold prio_of
  split_ifs <;> simp_all

/-- The threshold chain is monotone in the total score. -/
theorem prio_of_monotone (cfg : Config) (t₁ t₂ : Int) (h : t₁ ≤ t₂) :
    prio_rank (prio_of cfg t₁) ≤ prio_rank (prio_of cfg t₂) := by
  unfold prio_of
  split_ifs <;> simp [prio_rank] <;> omega

/-- A region list in which nothing matches scores the fixed minimum 5. -/
theorem region_loop_no_match (ort : String) (rs : List Region)
    (h : ∀ r ∈ rs, region_match ort r = false) :
    region_loop ort rs = 5 := by
  induction rs with
  | nil => rfl
  | cons r rest ih =>
    unfold region_loop
    rw [h r (List.mem_cons_self r rest)]
    simp only [Bool.false_eq_true, if_false]
    exact ih (fun r' hr' => h r' (List.mem_cons_of_mem r hr'))

/-- The region loop returns the score of the first matching region. -/
theorem region_loop_first_match (ort : String) (pre : List Region) (r : Region)
    (post : List Region)
    (hpre : ∀ r' ∈ pre, region_match ort r' = false)
    (hr : region_match ort r = true) :
    region_loop ort (pre ++ r :: post) = r.score := by
  induction pre with
  | nil =>
    unfold region_loop
    rw [List.nil_append]
    simp [hr]
  | cons p rest ih =>
    unfold region_loop
    rw [List.cons_append]
    simp only [hpre p (List.mem_cons_self p rest), Bool.false_eq_true, if_false]
    exact ih (fun r' hr' => hpre r' (List.mem_cons_of_mem p hr'))

/-- C1: for every listing L, `evaluate(L).score_total` lies in `[0, 100]`,
and whenever the result has `excluded == false`, `score_total` equals
`score_region + score_service + score_quality`.  The configuration
hypotheses express the documented valid weighting (default 30/40/30 with
region scores bounded by the region weight). -/
theorem C1_score_total_bounds (cfg : Config) (L : Listing)
    (h5 : 5 ≤ cfg.gew_region)
    (hl : 0 ≤ cfg.gew_leistung)
    (hr : ∀ r ∈ cfg.regionen, 0 ≤ r.score ∧ r.score ≤ cfg.gew_region)
    (hsum : cfg.gew_region + cfg.gew_leistung + 30 ≤ 100) :
    0 ≤ (bewerten cfg L).score_gesamt ∧ (bewerten cfg L).score_gesamt ≤ 100 ∧
      ((bewerten cfg L).ausgeschlossen = false →
        (bewerten cfg L).score_gesamt =
          (bewerten cfg L).score_region + (bewerten cfg L).score_leistung +
            (bewerten cfg L).score_qualitaet) := by
  cases h : (ist_ausgeschlossen cfg L).1
  · rw [bewerten_not_excluded cfg L h]
    have hreg := score_region_fn_bounds cfg L hr h5
    have hlei := score_leistung_fn_bounds cfg L (kategorie_erkennen cfg L) hl
    have hq := score_qualitaet_fn_bounds L
    dsimp only
    exact ⟨by omega, by omega, fun _ => rfl⟩
  · rw [bewerten_excluded cfg L h]
    dsimp only
    exact ⟨by omega, by omega, fun hc => by simp at hc⟩

/-- Witness for C1 at the default-weight test configuration and a concrete
listing. -/
theorem C1_witness :
    ((5 : Int) ≤ testConfig.gew_region) ∧ ((0 : Int) ≤ testConfig.gew_leistung) ∧
      (∀ r ∈ testConfig.regionen, 0 ≤ r.score ∧ r.score ≤ testConfig.gew_region) ∧
      (testConfig.gew_region + testConfig.gew_leistung + 30 ≤ 100) ∧
      (0 ≤ (bewerten testConfig testListingTop).score_gesamt ∧
        (bewerten testConfig testListingTop).score_gesamt ≤ 100 ∧
        ((bewerten testConfig testListingTop).ausgeschlossen = false →
          (bewerten testConfig testListingTop).score_gesamt =
            (bewerten testConfig testListingTop).score_region +
              (bewerten testConfig testListingTop).score_leistung +
              (bewerten testConfig testListingTop).score_qualitaet)) :=
  ⟨by decide, by decide, by decide, by decide,
    C1_score_total_bounds testConfig testListingTop
      (by decide) (by decide) (by decide) (by decide)⟩

/-- C2: whenever `ExclusionRules` reports exclusion, `evaluate` returns a
zero-score result: excluded flag set, all three sub-scores and the total 0,
priority low, category `other`, and a non-null exclusion reason. -/
theorem C2_exclusion_short_circuit (cfg : Config) (L : Listing)
    (h : (ist_ausgeschlossen cfg L).1 = true) :
    (bewerten cfg L).ausgeschlossen = true ∧
      (bewerten cfg L).score_region = 0 ∧
      (bewerten cfg L).score_leistung = 0 ∧
      (bewerten cfg L).score_qualitaet = 0 ∧
      (bewerten cfg L).score_gesamt = 0 ∧
      (bewerten cfg L).prioritaet = Prioritaet.ROT ∧
      (bewerten cfg L).kategorie = Kategorie.SONSTIGES ∧
      (bewerten cfg L).ausschluss_grund ≠ none := by
  obtain ⟨s, hs⟩ := ist_ausgeschlossen_snd_some cfg L h
  rw [bewerten_excluded cfg L h]
  dsimp only
  simp [hs]

/-- Witness for C2 at a listing excluded by the hard-coded city list. -/
theorem C2_witness :
    (ist_ausgeschlossen testConfig testListingBerlin).1 = true ∧
      ((bewerten testConfig testListingBerlin).ausgeschlossen = true ∧
        (bewerten testConfig testListingBerlin).score_region = 0 ∧
        (bewerten testConfig testListingBerlin).score_leistung = 0 ∧
        (bewerten testConfig testListingBerlin).score_qualitaet = 0 ∧
        (bewerten testConfig testListingBerlin).score_gesamt = 0 ∧
        (bewerten testConfig testListingBerlin).prioritaet = Prioritaet.ROT ∧
        (bewerten testConfig testListingBerlin).kategorie = Kategorie.SONSTIGES ∧
        (bewerten testConfig testListingBerlin).ausschluss_grund ≠ none) :=
  ⟨by decide, C2_exclusion_short_circuit testConfig testListingBerlin (by decide)⟩

/-- C3: for non-excluded listings the priority is the threshold step function
of the total score (high iff `total ≥ gruen_min`, medium iff
`gelb_min ≤ total < gruen_min`, low otherwise); at the default thresholds a
total of exactly 70 is high and 69 is medium; and the priority rank is
monotone in the total. -/
theorem C3_priority_thresholds (cfg : Config) (L : Listing)
    (h : (ist_ausgeschlossen cfg L).1 = false) :
    ((bewerten cfg L).prioritaet = Prioritaet.GRUEN ↔
        cfg.gruen_min ≤ (bewerten cfg L).score_gesamt) ∧
      ((bewerten cfg L).prioritaet = Prioritaet.GELB ↔
        cfg.gelb_min ≤ (bewerten cfg L).score_gesamt ∧
          (bewerten cfg L).score_gesamt < cfg.gruen_min) ∧
      ((bewerten cfg L).prioritaet = Prioritaet.ROT ↔
        (bewerten cfg L).score_gesamt < cfg.gelb_min ∧
          (bewerten cfg L).score_gesamt < cfg.gruen_min) ∧
      (cfg.gruen_min = 70 → cfg.gelb_min = 40 →
        ((bewerten cfg L).score_gesamt = 70 →
            (bewerten cfg L).prioritaet = Prioritaet.GRUEN) ∧
          ((bewerten cfg L).score_gesamt = 69 →
            (bewerten cfg L).prioritaet = Prioritaet.GELB)) ∧
      (∀ L' : Listing, (ist_ausgeschlossen cfg L').1 = false →
        (bewerten cfg L).score_gesamt ≤ (bewerten cfg L').score_gesamt →
        prio_rank (bewerten cfg L).prioritaet ≤
          prio_rank (bewerten cfg L').prioritaet) := by
  have hp : (bewerten cfg L).prioritaet =
      prio_of cfg (bewerten cfg L).score_gesamt := by
    rw [bewerten_not_excluded cfg L h]
  refine ⟨?_, ?_, ?_, ?_, ?_⟩
  · rw [hp]; exact prio_of_gruen_iff cfg _
  · rw [hp]; exact prio_of_gelb_iff cfg _
  · rw [hp]; exact prio_of_rot_iff cfg _
  · intro h70 h40
    constructor
    · intro ht; rw [hp, prio_of_gruen_iff]; omega
    · intro ht; rw [hp, prio_of_gelb_iff]; omega
  · intro L' h' hle
    have hp' : (bewerten cfg L').prioritaet =
        prio_of cfg (bewerten cfg L').score_gesamt := by
      rw [bewerten_not_excluded cfg L' h']
    rw [hp, hp']
    exact prio_of_monotone cfg _ _ hle

/-- Witness for C3 at the default-threshold test configuration. -/
theorem C3_witness :
    (ist_ausgeschlossen testConfig testListingTop).1 = false ∧
      ((bewerten testConfig testListingTop).prioritaet = Prioritaet.GRUEN ↔
        testConfig.gruen_min ≤ (bewerten testConfig testListingTop).score_gesamt) :=
  ⟨by decide, (C3_priority_thresholds testConfig testListingTop (by decide)).1⟩

/-- C4 counterexample: the test listing located in "Berlin" matches no
configured excluded-service term and no low-budget phrase, yet
`ist_ausgeschlossen` excludes it — the check also reads the location field,
so the result is not `(false, null)` regardless of location. -/
theorem C4_counterexample :
    (∀ t ∈ testConfig.ausschluss_leistungen,
        str_in (pyLower t)
          (pyLower (testListingBerlin.titel ++ " " ++ testListingBerlin.beschreibung)) = false) ∧
      (∀ t ∈ testConfig.ausschluss_billig,
        str_in (pyLower t)
          (pyLower (testListingBerlin.titel ++ " " ++ testListingBerlin.beschreibung)) = false) ∧
      ist_ausgeschlossen testConfig testListingBerlin =
        (true, some "Zu weit entfernt (>100km): Berlin") := by
  refine ⟨by decide, by decide, ?_⟩
  decide

/-- C4 amended: when no configured excluded-service term and no low-budget
phrase occurs in the lower-cased title+description, and the location field is
empty (so the hard-coded geographic checks cannot fire), `is_excluded`
returns `(false, null)`. -/
theorem C4_amended_no_match (cfg : Config) (L : Listing)
    (h1 : ∀ t ∈ cfg.ausschluss_leistungen,
        str_in (pyLower t) (pyLower (L.titel ++ " " ++ L.beschreibung)) = false)
    (h2 : ∀ t ∈ cfg.ausschluss_billig,
        str_in (pyLower t) (pyLower (L.titel ++ " " ++ L.beschreibung)) = false)
    (h3 : L.ort = "") :
    ist_ausgeschlossen cfg L = (false, none) := by
  have f1 : (cfg.ausschluss_leistungen.map pyLower).find?
      (fun a => str_in a (pyLower (L.titel ++ " " ++ L.beschreibung))) = none := by
    rw [List.find?_eq_none]
    intro x hx
    obtain ⟨t, ht, rfl⟩ := List.mem_map.mp hx
    simp [h1 t ht]
  have f2 : (cfg.ausschluss_billig.map pyLower).find?
      (fun b => str_in b (pyLower (L.titel ++ " " ++ L.beschreibung))) = none := by
    rw [List.find?_eq_none]
    intro x hx
    obtain ⟨t, ht, rfl⟩ := List.mem_map.mp hx
    simp [h2 t ht]
  unfold ist_ausgeschlossen
  dsimp only
  rw [f1, f2, h3]
  decide

/-- Witness for the amended C4 at a concrete listing with empty location. -/
theorem C4_amended_witness :
    (∀ t ∈ testConfig.ausschluss_leistungen,
        str_in (pyLower t)
          (pyLower (testListingKurz.titel ++ " " ++ testListingKurz.beschreibung)) = false) ∧
      testListingKurz.ort = "" ∧
      ist_ausgeschlossen testConfig testListingKurz = (false, none) :=
  ⟨by decide, rfl,
    C4_amended_no_match testConfig testListingKurz (by decide) (by decide) rfl⟩

/-- C5: `has_realistic_description` is false below 20 characters; from 20
characters on it is true when an area or room-count pattern occurs in the
lower-cased description, and otherwise true exactly when the description has
at least 50 characters. -/
theorem C5_realistic_description (L : Listing) :
    (L.beschreibung.length < 20 → hat_realistische_beschreibung L = false) ∧
      (20 ≤ L.beschreibung.length →
        (flaeche_found (pyLower L.beschreibung) ||
            raum_found (pyLower L.beschreibung)) = true →
        hat_realistische_beschreibung L = true) ∧
      (20 ≤ L.beschreibung.length →
        (flaeche_found (pyLower L.beschreibung) ||
            raum_found (pyLower L.beschreibung)) = false →
        (hat_realistische_beschreibung L = true ↔ 50 ≤ L.beschreibung.length)) := by
  unfold hat_realistische_beschreibung
  dsimp only
  refine ⟨?_, ?_, ?_⟩
  · intro hlen
    rw [if_pos hlen]
  · intro hlen hpat
    rw [if_neg (by omega)]
    rcases Bool.or_eq_true_iff.mp hpat with hf | hr
    · rw [if_pos hf]
    · rw [hr]
      split_ifs <;> simp_all
  · intro hlen hpat
    rw [Bool.or_eq_false_iff] at hpat
    rw [if_neg (by omega), hpat.1, hpat.2]
    simp

/-- Witness for C5 at a 30-character description with no numeric pattern. -/
theorem C5_witness :
    20 ≤ testListingKurz.beschreibung.length ∧
      (flaeche_found (pyLower testListingKurz.beschreibung) ||
          raum_found (pyLower testListingKurz.beschreibung)) = false ∧
      (hat_realistische_beschreibung testListingKurz = true ↔
        50 ≤ testListingKurz.beschreibung.length) :=
  ⟨by decide, by decide,
    (C5_realistic_description testListingKurz).2.2 (by decide) (by decide)⟩

/-- C6: for non-excluded listings the region sub-score is the score of the
first configured region that matches the lower-cased location; an empty
location yields `gew_region // 3`; a non-empty location matching no region
yields the fixed minimum 5, never zero. -/
theorem C6_region_first_match (cfg : Config) (L : Listing)
    (hx : (ist_ausgeschlossen cfg L).1 = false) :
    ((bewerten cfg L).score_region = score_region_fn cfg L) ∧
      (L.ort = "" → score_region_fn cfg L = cfg.gew_region.fdiv 3) ∧
      (L.ort ≠ "" → (∀ r ∈ cfg.regionen, region_match (pyLower L.ort) r = false) →
        score_region_fn cfg L = 5 ∧ score_region_fn cfg L ≠ 0) ∧
      (∀ pre r post, cfg.regionen = pre ++ r :: post →
        (∀ r' ∈ pre, region_match (pyLower L.ort) r' = false) →
        region_match (pyLower L.ort) r = true →
        L.ort ≠ "" →
        score_region_fn cfg L = r.score) := by
  refine ⟨?_, ?_, ?_, ?_⟩
  · rw [bewerten_not_excluded cfg L hx]
  · intro h
    unfold score_region_fn
    dsimp only
    rw [h]
    have hl : pyLower "" = "" := rfl
    rw [hl]
    simp
  · intro hne hnm
    unfold score_region_fn
    dsimp only
    rw [if_neg (fun hc => hne ((pyLower_eq_empty_iff L.ort).mp hc))]
    rw [region_loop_no_match (pyLower L.ort) cfg.regionen hnm]
    exact ⟨rfl, by decide⟩
  · intro pre r post heq hpre hm hne
    unfold score_region_fn
    dsimp only
    rw [if_neg (fun hc => hne ((pyLower_eq_empty_iff L.ort).mp hc))]
    rw [heq]
    exact region_loop_first_match (pyLower L.ort) pre r post hpre hm

/-- Witness for C6: the Heilbronn listing matches the first configured
region by keyword, so its point value 30 is returned. -/
theorem C6_witness :
    (ist_ausgeschlossen testConfig testListingTop).1 = false ∧
      region_match (pyLower testListingTop.ort) regionKern = true ∧
      score_region_fn testConfig testListingTop = regionKern.score :=
  ⟨by decide, by decide,
    (C6_region_first_match testConfig testListingTop (by decide)).2.2.2
      [] regionKern [regionErweitert] rfl (by simp) (by decide) (by decide)⟩

/-- C7: `ist_im_radius` applied to the empty location string answers
`(true, null, null)` for every configuration of the geocoding lookup, the
distance function and the radius predicate. -/
theorem C7_empty_location_never_excluded {Coord Dist : Type}
    (get_coordinates : String → Option Coord) (distanz : Coord → Dist)
    (im_radius_check : Dist → Bool) (grund_fmt : Dist → String) :
    ist_im_radius get_coordinates distanz im_radius_check grund_fmt "" =
      (true, none, none) := rfl

/-- C8: a listing whose text matches both an excluded-service term and a
low-budget phrase is excluded with the service-exclusion reason (the service
list is scanned first). -/
theorem C8_service_reason_first (cfg : Config) (L : Listing)
    (h1 : ∃ t ∈ cfg.ausschluss_leistungen,
        str_in (pyLower t) (pyLower (L.titel ++ " " ++ L.beschreibung)) = true)
    (h2 : ∃ t ∈ cfg.ausschluss_billig,
        str_in (pyLower t) (pyLower (L.titel ++ " " ++ L.beschreibung)) = true) :
    (ist_ausgeschlossen cfg L).1 = true ∧
      ∃ t, (cfg.ausschluss_leistungen.map pyLower).find?
          (fun a => str_in a (pyLower (L.titel ++ " " ++ L.beschreibung))) = some t ∧
        (ist_ausgeschlossen cfg L).2 = some ("Ausgeschlossene Leistung: " ++ t) := by
  obtain ⟨t, hfind⟩ : ∃ t, (cfg.ausschluss_leistungen.map pyLower).find?
      (fun a => str_in a (pyLower (L.titel ++ " " ++ L.beschreibung))) = some t := by
    cases hf : (cfg.ausschluss_leistungen.map pyLower).find?
        (fun a => str_in a (pyLower (L.titel ++ " " ++ L.beschreibung))) with
    | some t => exact ⟨t, rfl⟩
    | none =>
      rw [List.find?_eq_none] at hf
      obtain ⟨x, hx, hpx⟩ := h1
      exact absurd (hf (pyLower x) (List.mem_map_of_mem pyLower hx)) (by simp [hpx])
  refine ⟨?_, t, hfind, ?_⟩
  · unfold ist_ausgeschlossen
    dsimp only
    rw [hfind]
  · unfold ist_ausgeschlossen
    dsimp only
    rw [hfind]

/-- Witness for C8 at a listing matching both exclusion lists. -/
theorem C8_witness :
    (ist_ausgeschlossen testConfig testListingBeides).1 = true ∧
      (ist_ausgeschlossen testConfig testListingBeides).2 =
        some "Ausgeschlossene Leistung: fliesen verlegen" := by
  obtain ⟨hfst, t, hfind, hsnd⟩ :=
    C8_service_reason_first testConfig testListingBeides
      ⟨"fliesen verlegen", by decide, by decide⟩
      ⟨"zum günstigsten preis", by decide, by decide⟩
  have ht : t = "fliesen verlegen" := by
    have h' : (testConfig.ausschluss_leistungen.map pyLower).find?
        (fun a => str_in a
          (pyLower (testListingBeides.titel ++ " " ++ testListingBeides.beschreibung))) =
        some "fliesen verlegen" := by decide
    exact Option.some.inj (hfind.symm.trans h')
  subst ht
  exact ⟨hfst, hsnd⟩

/-- C9: `classify` counts keyword hits per category in the lower-cased
title+description and returns the category with the highest non-zero count,
first-declared category winning ties (declaration order BODEN, MONTAGE,
UEBERGABE); it returns `other` exactly when every count is zero. -/
theorem C9_category_vote (cfg : Config) (L : Listing) :
    (0 < keyword_match_count cfg.suchbegriffe_boden
          (pyLower (L.titel ++ " " ++ L.beschreibung)) →
      keyword_match_count cfg.suchbegriffe_montage
          (pyLower (L.titel ++ " " ++ L.beschreibung)) ≤
        keyword_match_count cfg.suchbegriffe_boden
          (pyLower (L.titel ++ " " ++ L.beschreibung)) →
      keyword_match_count cfg.suchbegriffe_uebergabe
          (pyLower (L.titel ++ " " ++ L.beschreibung)) ≤
        keyword_match_count cfg.suchbegriffe_boden
          (pyLower (L.titel ++ " " ++ L.beschreibung)) →
      kategorie_erkennen cfg L = Kategorie.BODEN) ∧
    (keyword_match_count cfg.suchbegriffe_boden
          (pyLower (L.titel ++ " " ++ L.beschreibung)) <
        keyword_match_count cfg.suchbegriffe_montage
          (pyLower (L.titel ++ " " ++ L.beschreibung)) →
      keyword_match_count cfg.suchbegriffe_uebergabe
          (pyLower (L.titel ++ " " ++ L.beschreibung)) ≤
        keyword_match_count cfg.suchbegriffe_montage
          (pyLower (L.titel ++ " " ++ L.beschreibung)) →
      kategorie_erkennen cfg L = Kategorie.MONTAGE) ∧
    (keyword_match_count cfg.suchbegriffe_boden
          (pyLower (L.titel ++ " " ++ L.beschreibung)) <
        keyword_match_count cfg.suchbegriffe_uebergabe
          (pyLower (L.titel ++ " " ++ L.beschreibung)) →
      keyword_match_count cfg.suchbegriffe_montage
          (pyLower (L.titel ++ " " ++ L.beschreibung)) <
        keyword_match_count cfg.suchbegriffe_uebergabe
          (pyLower (L.titel ++ " " ++ L.beschreibung)) →
      kategorie_erkennen cfg L = Kategorie.UEBERGABE) ∧
    (kategorie_erkennen cfg L = Kategorie.SONSTIGES ↔
      (keyword_match_count cfg.suchbegriffe_boden
          (pyLower (L.titel ++ " " ++ L.beschreibung)) = 0 ∧
        keyword_match_count cfg.suchbegriffe_montage
          (pyLower (L.titel ++ " " ++ L.beschreibung)) = 0 ∧
        keyword_match_count cfg.suchbegriffe_uebergabe
          (pyLower (L.titel ++ " " ++ L.beschreibung)) = 0)) := by
  unfold kategorie_erkennen
  dsimp only
  set b := keyword_match_count cfg.suchbegriffe_boden
    (pyLower (L.titel ++ " " ++ L.beschreibung)) with hb
  set m := keyword_match_count cfg.suchbegriffe_montage
    (pyLower (L.titel ++ " " ++ L.beschreibung)) with hm
  set u := keyword_match_count cfg.suchbegriffe_uebergabe
    (pyLower (L.titel ++ " " ++ L.beschreibung)) with hu
  unfold max_kategorie
  by_cases h1 : b ≥ m ∧ b ≥ u
  · rw [if_pos h1]
    unfold kategorie_count
    dsimp only
    refine ⟨?_, ?_, ?_, ?_⟩
    · intro hpos _ _; rw [if_pos hpos]
    · intro hlt _; omega
    · intro hlt _; omega
    · split_ifs with hpos
      · simp only [reduceCtorEq, false_iff]; omega
      · simp only [true_iff]; omega
  · rw [if_neg h1]
    by_cases h2 : m ≥ u
    · rw [if_pos h2]
      unfold kategorie_count
      dsimp only
      refine ⟨?_, ?_, ?_, ?_⟩
      · intro _ hmb hub; omega
      · intro hbm _
        rw [if_pos (by omega)]
      · intro hbu hmu; omega
      · split_ifs with hpos
        · simp only [reduceCtorEq, false_iff]; omega
        · simp only [true_iff]; omega
    · rw [if_neg h2]
      unfold kategorie_count
      dsimp only
      refine ⟨?_, ?_, ?_, ?_⟩
      · intro _ hmb hub; omega
      · intro hbm hum; omega
      · intro hbu hmu
        rw [if_pos (by omega)]
      · split_ifs with hpos
        · simp only [reduceCtorEq, false_iff]; omega
        · simp only [true_iff]; omega

/-- Witness for C9: the flooring listing has one BODEN keyword hit and none
for the other categories. -/
theorem C9_witness :
    0 < keyword_match_count testConfig.suchbegriffe_boden
        (pyLower (testListingTop.titel ++ " " ++ testListingTop.beschreibung)) ∧
      kategorie_erkennen testConfig testListingTop = Kategorie.BODEN :=
  ⟨by decide,
    (C9_category_vote testConfig testListingTop).1 (by decide) (by decide) (by decide)⟩

/-- C10: a scoring result is relevant exactly when it is not excluded and its
priority is not low; an excluded result is never relevant, and a non-excluded
one is relevant exactly when the total reaches the medium threshold (for the
valid configuration `gelb_min ≤ gruen_min`). -/
theorem C10_relevance (cfg : Config) (L : Listing)
    (h : cfg.gelb_min ≤ cfg.gruen_min) :
    ((bewerten cfg L).ist_relevant = true ↔
        (bewerten cfg L).ausgeschlossen = false ∧
          (bewerten cfg L).prioritaet ≠ Prioritaet.ROT) ∧
      ((bewerten cfg L).ausgeschlossen = true →
        (bewerten cfg L).ist_relevant = false) ∧
      ((bewerten cfg L).ausgeschlossen = false →
        ((bewerten cfg L).ist_relevant = true ↔
          cfg.gelb_min ≤ (bewerten cfg L).score_gesamt)) := by
  have hrel : (bewerten cfg L).ist_relevant = true ↔
      ((bewerten cfg L).ausgeschlossen = false ∧
        (bewerten cfg L).prioritaet ≠ Prioritaet.ROT) := by
    unfold Bewertungsergebnis.ist_relevant
    simp
  refine ⟨hrel, ?_, ?_⟩
  · intro hex
    cases hb : (bewerten cfg L).ist_relevant
    · rfl
    · exact absurd hex (by simp [(hrel.mp hb).1])
  · intro hnex
    have hx : (ist_ausgeschlossen cfg L).1 = false := by
      rw [← bewerten_ausgeschlossen_eq]; exact hnex
    have hp : (bewerten cfg L).prioritaet =
        prio_of cfg (bewerten cfg L).score_gesamt := by
      rw [bewerten_not_excluded cfg L hx]
    rw [hrel, hp]
    constructor
    · intro ⟨_, hnrot⟩
      by_contra hc
      exact hnrot ((prio_of_rot_iff cfg _).mpr (by omega))
    · intro hge
      refine ⟨hnex, fun hc => ?_⟩
      have := (prio_of_rot_iff cfg _).mp hc
      omega

/-- Witness for C10 at the default thresholds and a concrete non-excluded
listing. -/
theorem C10_witness :
    testConfig.gelb_min ≤ testConfig.gruen_min ∧
      ((bewerten testConfig testListingTop).ausgeschlossen = false →
        ((bewerten testConfig testListingTop).ist_relevant = true ↔
          testConfig.gelb_min ≤ (bewerten testConfig testListingTop).score_gesamt)) :=
  ⟨by decide, (C10_relevance testConfig testListingTop (by decide)).2.2⟩
